import Mathlib

/-!
Shallow embedding of marcus8448/stock-spreadsheet-generator.

The repository holds two variants of the same small tool:
* `src/main.rs` — the active binary: `query_tickers` / `deserialize_yahoo`,
  trait-object rows (`RealQuote` / `FailedQuote`), CSV emission in `main`;
* `src/yahoo.rs` — a typed blocking quote client `request_quote` with the
  `YahooError` taxonomy (this file is not referenced from `main.rs`, but the
  claims cite it explicitly, so it is embedded as well).

Numeric values use a model of `rust_decimal::Decimal`: a signed mantissa with
a decimal scale. Arithmetic is modelled exactly (the 96-bit overflow paths of
`rust_decimal` are out of range for everything the claims touch).
-/

set_option autoImplicit false

/-- Model of `rust_decimal::Decimal`: value = `mantissa / 10 ^ scale`.
Two representations with the same value but different scales print
differently (`2.0` vs `2.00`), exactly as in `rust_decimal`. -/
structure Decimal where
  mantissa : Int
  scale : Nat
  deriving DecidableEq, Repr

namespace Decimal

/-- Model of `Decimal::zero()`. -/
def zero : Decimal := ⟨0, 0⟩

/-- Model of `Decimal::from(n)` for an unsigned integer: scale 0. -/
def ofNat (n : Nat) : Decimal := ⟨(n : Int), 0⟩

/-- Model of `Decimal::add`: align the two scales, add mantissas. -/
def add (a b : Decimal) : Decimal :=
  let s := max a.scale b.scale
  ⟨a.mantissa * (10 : Int) ^ (s - a.scale) + b.mantissa * (10 : Int) ^ (s - b.scale), s⟩

/-- Model of `Decimal::sub`: align the two scales, subtract mantissas. -/
def sub (a b : Decimal) : Decimal :=
  let s := max a.scale b.scale
  ⟨a.mantissa * (10 : Int) ^ (s - a.scale) - b.mantissa * (10 : Int) ^ (s - b.scale), s⟩

/-- Model of `Decimal::mul`: multiply mantissas, add scales. -/
def mul (a b : Decimal) : Decimal :=
  ⟨a.mantissa * b.mantissa, a.scale + b.scale⟩

/-- Model of `Decimal::round_dp(dp)` with the default
`RoundingStrategy::MidpointNearestEven` (bankers rounding): a value whose
scale is already at most `dp` is returned unchanged (no zero padding). -/
def round_dp (d : Decimal) (dp : Nat) : Decimal :=
  if d.scale ≤ dp then d
  else
    let p : Int := (10 : Int) ^ (d.scale - dp)
    let q := d.mantissa.ediv p
    let r := d.mantissa.emod p
    let m :=
      if 2 * r < p then q
      else if p < 2 * r then q + 1
      else if q.emod 2 = 0 then q else q + 1
    ⟨m, dp⟩

/-- Left-pad a digit string with zeros to the requested width. -/
def zeroPad (width : Nat) (s : String) : String :=
  String.mk (List.replicate (width - s.length) '0') ++ s

/-- Model of `Decimal::to_string` (the `Display` impl): print the mantissa
with the decimal point inserted `scale` digits from the right, keeping
trailing zeros dictated by the scale. -/
def to_string (d : Decimal) : String :=
  let sign := if d.mantissa < 0 then "-" else ""
  let a := d.mantissa.natAbs
  if d.scale = 0 then sign ++ Nat.repr a
  else
    let p := 10 ^ d.scale
    sign ++ Nat.repr (a / p) ++ "." ++ zeroPad d.scale (Nat.repr (a % p))

end Decimal

namespace Main

/-- Model of `struct Ticker` in `main.rs`: config entry, `quantity` is the
TOML `volume` field and may be absent (`Option<u32>`). -/
structure Ticker where
  id : String
  quantity : Option Nat
  deriving DecidableEq, Repr

/-- Model of `struct Config` in `main.rs`. -/
structure Config where
  tickers : List Ticker

/-- Model of `struct Meta` in `main.rs` (serde camelCase):
`chartPreviousClose` is a required field, `previousClose` is optional. -/
structure Meta where
  currency : String
  chart_previous_close : Decimal
  previous_close : Option Decimal
  regular_market_price : Decimal
  deriving Repr

/-- Model of `struct Quote` in `main.rs` (one element of `chart.result`). -/
structure Quote where
  meta : Meta
  deriving Repr

/-- Model of `struct Chart` in `main.rs`. -/
structure Chart where
  result : List Quote
  deriving Repr

/-- Model of `struct Response` in `main.rs`. -/
structure Response where
  chart : Chart
  deriving Repr

/-- Model of `struct RealQuote` in `main.rs`: the success row. -/
structure RealQuote where
  ticker : String
  price : Decimal
  change : Decimal
  quantity : Nat
  total : Decimal
  currency : String
  deriving DecidableEq, Repr

/-- Model of `struct FailedQuote` in `main.rs`: the failure row. -/
structure FailedQuote where
  ticker : String
  quantity : Nat
  deriving DecidableEq, Repr

/-- Model of the `dyn FormattedQuote` trait objects produced by
`query_tickers`: exactly two implementations exist, `RealQuote` and
`FailedQuote`, so the dynamic dispatch becomes a two-variant sum. -/
inductive Row where
  | real (q : RealQuote)
  | failed (f : FailedQuote)
  deriving DecidableEq, Repr

namespace Row

/-- Model of `FormattedQuote::get_ticker` over both impls. -/
def get_ticker : Row → String
  | real q => q.ticker
  | failed f => f.ticker

/-- Model of `FormattedQuote::get_price` over both impls. -/
def get_price : Row → Option Decimal
  | real q => some q.price
  | failed _ => none

/-- Model of `FormattedQuote::get_change` over both impls. -/
def get_change : Row → Option Decimal
  | real q => some q.change
  | failed _ => none

/-- Model of `FormattedQuote::get_quantity` over both impls. -/
def get_quantity : Row → Nat
  | real q => q.quantity
  | failed f => f.quantity

/-- Model of `FormattedQuote::get_total` over both impls. -/
def get_total : Row → Option Decimal
  | real q => some q.total
  | failed _ => none

/-- Model of `FormattedQuote::get_currency` over both impls. -/
def get_currency : Row → Option String
  | real q => some q.currency
  | failed _ => none

/-- Model of `FormattedQuote::write_line` over both impls, as the list of
the six CSV fields of the record it writes: `RealQuote` writes ticker, the
three money fields rounded to 2 decimal places, the quantity, and the
currency; `FailedQuote` writes ticker, quantity and four blanks. -/
def write_line : Row → List String
  | real q =>
      [q.ticker, (q.price.round_dp 2).to_string, (q.change.round_dp 2).to_string,
       Nat.repr q.quantity, (q.total.round_dp 2).to_string, q.currency]
  | failed f =>
      [f.ticker, "", "", Nat.repr f.quantity, "", ""]

end Row

/-- Outcome of the network and JSON-decode stages of `deserialize_yahoo`,
keyed by ticker id (the id determines the request URL). The four cases are
the outcomes the function distinguishes: `reqwest::get` failing,
`response.json()` failing, `serde_json::from_value::<Response>` failing
(this is where an absent required `chartPreviousClose` lands), and a decoded
`Response`. -/
inductive NetResult where
  | connectFailed (msg : String)
  | malformedJson (msg : String)
  | invalidJson (msg : String)
  | ok (response : Response)

/-- Model of `deserialize_yahoo` in `main.rs`, parametrised by the network
oracle. Each early-return `Err(format!(..))` becomes an `Except.error` with
the same message prefix; the success path builds the `RealQuote` exactly as
lines 143-156 of `main.rs` do. -/
def deserialize_yahoo (net : String → NetResult) (t : Ticker) : Except String RealQuote :=
  let volume := t.quantity.getD 0
  match net t.id with
  | .connectFailed m => .error ("Warning: invalid response from yahoo! " ++ m)
  | .malformedJson m => .error ("Encountered malformed json. " ++ m)
  | .invalidJson m => .error ("Warning: invalid json! " ++ m)
  | .ok response =>
    match response.chart.result.head? with
    | none => .error "Warning: missing result!"
    | some quote =>
      .ok { ticker := t.id
            price := quote.meta.regular_market_price
            change := quote.meta.regular_market_price.sub
              (quote.meta.previous_close.getD quote.meta.chart_previous_close)
            quantity := t.quantity.getD 0
            total := quote.meta.regular_market_price.mul (Decimal.ofNat volume)
            currency := quote.meta.currency }

/-- Model of `create_failed_row` in `main.rs`. -/
def create_failed_row (t : Ticker) : FailedQuote :=
  { ticker := t.id, quantity := t.quantity.getD 0 }

/-- Model of `query_tickers` in `main.rs`: one row per ticker, in config
order; a ticker whose fetch fails is printed (second component: the log
lines, in order) and replaced by `create_failed_row`. -/
def query_tickers (net : String → NetResult) : List Ticker → List Row × List String
  | [] => ([], [])
  | t :: ts =>
    let rest := query_tickers net ts
    match deserialize_yahoo net t with
    | .ok quote => (.real quote :: rest.1, rest.2)
    | .error e => (.failed (create_failed_row t) :: rest.1, e :: rest.2)

/-- The row `query_tickers` pushes for a single ticker (the body of its
loop). -/
def row_for (net : String → NetResult) (t : Ticker) : Row :=
  match deserialize_yahoo net t with
  | .ok quote => .real quote
  | .error _ => .failed (create_failed_row t)

/-- The header record `main` writes before the loop. -/
def csvHeader : List String :=
  ["Ticker", "Price", "Change", "Quantity", "Total", "Currency"]

/-- Model of the `for quote in query_tickers(..)` loop in `main`: thread the
running total (adding `get_total` when it is `Some`) and append the
`write_line` record of each row. -/
def main_loop : List Row → Decimal → List (List String) → Decimal × List (List String)
  | [], total, acc => (total, acc)
  | r :: rs, total, acc =>
    let total :=
      match r.get_total with
      | some tot => total.add tot
      | none => total
    main_loop rs total (acc ++ [r.write_line])

/-- Model of the CSV emission in `main` (lines 67-83): header record, the
loop over the rows, one fully blank record, then the totals record with the
accumulated total (unrounded `to_string`) in the fifth field. -/
def write_csv (rows : List Row) : List (List String) :=
  let res := main_loop rows Decimal.zero [csvHeader]
  res.2 ++ [["", "", "", "", "", ""], ["", "", "", "", res.1.to_string, ""]]

end Main

namespace Yahoo

/-- Model of `enum YahooError` in `yahoo.rs`. Status codes are their
numeric value; the wrapped library errors are their messages. -/
inductive YahooError where
  | connectionError (msg : String)
  | httpError (status : Nat)
  | invalidResponse (msg : String)
  | malformedJson (msg : String)
  deriving DecidableEq, Repr

/-- Model of `struct YahooMeta` in `yahoo.rs` (serde camelCase): here BOTH
`previousClose` and `chartPreviousClose` are optional. -/
structure YahooMeta where
  symbol : String
  currency : String
  previous_close : Option Decimal
  chart_previous_close : Option Decimal
  regular_market_price : Decimal
  deriving Repr

/-- Model of `struct YahooQuote` in `yahoo.rs`. -/
structure YahooQuote where
  meta : YahooMeta
  deriving Repr

/-- Model of `struct YahooChart` in `yahoo.rs`. -/
structure YahooChart where
  result : List YahooQuote
  deriving Repr

/-- Model of `struct YahooResponse` in `yahoo.rs`. -/
structure YahooResponse where
  chart : YahooChart
  deriving Repr

/-- Model of `pub struct Quote` in `yahoo.rs`. -/
structure Quote where
  price : Decimal
  change : Decimal
  currency : String
  deriving DecidableEq, Repr

/-- Outcome of the HTTP exchange `request_quote` performs, as `request_quote`
observes it: either `send()` failed, or a response arrived carrying a status
code and a body whose `serde_json::from_str::<YahooResponse>` outcome is
given (the decode result stands in for the body text). -/
inductive HttpExchange where
  | sendFailed (msg : String)
  | response (status : Nat) (decoded : Except String YahooResponse)

/-- Model of `reqwest::StatusCode::is_success`: 2xx. -/
def statusIsSuccess (status : Nat) : Bool :=
  decide (200 ≤ status ∧ status < 300)

/-- Result of a Rust function that may return, error, or panic. -/
inductive Outcome (ε α : Type) where
  | ok (a : α)
  | err (e : ε)
  | panicked (msg : String)
  deriving DecidableEq, Repr

/-- Model of `request_quote` in `yahoo.rs`: `send()?` maps transport failure
to `ConnectionError`; a non-2xx status returns `HttpError(status)` before
the body is decoded; a decode failure maps to `MalformedJson`; an empty
`chart.result` returns `InvalidResponse("No data provided")`; then
`assert_eq!(ticker, quote.symbol)` (panic on mismatch) and
`previous_close.or(chart_previous_close).unwrap()` (panic when both are
absent) build the `Quote`. -/
def request_quote (ticker : String) (net : HttpExchange) : Outcome YahooError Quote :=
  match net with
  | .sendFailed msg => .err (.connectionError msg)
  | .response status decoded =>
    if ¬ statusIsSuccess status then .err (.httpError status)
    else
      match decoded with
      | .error msg => .err (.malformedJson msg)
      | .ok response =>
        match response.chart.result.head? with
        | none => .err (.invalidResponse "No data provided")
        | some first =>
          let quote := first.meta
          if ticker ≠ quote.symbol then
            .panicked "assertion failed: ticker == quote.symbol"
          else
            match quote.previous_close.or quote.chart_previous_close with
            | none => .panicked "called Option::unwrap on a None value"
            | some prev =>
              .ok { price := quote.regular_market_price
                    change := quote.regular_market_price.sub prev
                    currency := quote.currency }

end Yahoo

/-- One fetch of the polling loop in `query_tickers`, placed on a mock
clock: the request is issued at `start` and returns at `finish`. -/
structure FetchEvent where
  ticker : String
  start : Nat
  finish : Nat
  deriving DecidableEq, Repr

/-- Timing model of the loop in `query_tickers` (`main.rs` lines 99-112):
each iteration awaits `deserialize_yahoo` immediately — the loop body
contains no sleep or pacing call (rate limiting is a `todo` comment) — so
each request is issued at the instant the previous one returned. `dur`
gives the duration of each request on the mock clock. -/
def query_tickers_sched (dur : String → Nat) : List Main.Ticker → Nat → List FetchEvent
  | [], _ => []
  | t :: ts, now =>
    { ticker := t.id, start := now, finish := now + dur t.id }
      :: query_tickers_sched dur ts (now + dur t.id)

namespace Main

theorem deserialize_yahoo_ok_ticker {net : String → NetResult} {t : Ticker} {q : RealQuote}
    (h : deserialize_yahoo net t = .ok q) : q.ticker = t.id := by
  unfold deserialize_yahoo at h
  split at h
  · exact Except.noConfusion h
  · exact Except.noConfusion h
  · exact Except.noConfusion h
  · split at h
    · exact Except.noConfusion h
    · cases h
      rfl

theorem row_for_get_ticker (net : String → NetResult) (t : Ticker) :
    (row_for net t).get_ticker = t.id := by
  unfold row_for
  split
  case h_1 q h => exact deserialize_yahoo_ok_ticker h
  case h_2 => rfl

theorem row_for_ok {net : String → NetResult} {t : Ticker} {q : RealQuote}
    (h : deserialize_yahoo net t = .ok q) : row_for net t = .real q := by
  unfold row_for
  rw [h]

theorem row_for_error {net : String → NetResult} {t : Ticker} {e : String}
    (h : deserialize_yahoo net t = .error e) :
    row_for net t = .failed (create_failed_row t) := by
  unfold row_for
  rw [h]

theorem query_tickers_fst (net : String → NetResult) (tickers : List Ticker) :
    (query_tickers net tickers).1 = tickers.map (row_for net) := by
  induction tickers with
  | nil => rfl
  | cons t ts ih =>
    show (match deserialize_yahoo net t with
      | .ok quote => (Row.real quote :: (query_tickers net ts).1, (query_tickers net ts).2)
      | .error e => (Row.failed (create_failed_row t) :: (query_tickers net ts).1,
          e :: (query_tickers net ts).2)).1 = _
    split
    next q h => simp [List.map_cons, row_for_ok h, ih]
    next e h => simp [List.map_cons, row_for_error h, ih]

theorem mem_query_tickers_log {net : String → NetResult} {t : Ticker} {e : String}
    {tickers : List Ticker} (hmem : t ∈ tickers)
    (herr : deserialize_yahoo net t = .error e) :
    e ∈ (query_tickers net tickers).2 := by
  induction tickers with
  | nil => cases hmem
  | cons t₀ ts ih =>
    show e ∈ (match deserialize_yahoo net t₀ with
      | .ok quote => (Row.real quote :: (query_tickers net ts).1, (query_tickers net ts).2)
      | .error e₀ => (Row.failed (create_failed_row t₀) :: (query_tickers net ts).1,
          e₀ :: (query_tickers net ts).2)).2
    rcases List.mem_cons.mp hmem with rfl | hts
    · rw [herr]
      exact List.mem_cons_self _ _
    · split
      · exact ih hts
      · exact List.mem_cons_of_mem _ (ih hts)

end Main

/-- Claim C1: for every configured list of tickers (and any network
behaviour), `query_tickers` produces exactly one `Row` per configured
`Ticker`, carrying the id of that ticker, in the same relative order as the
config list. -/
theorem c1_one_row_per_ticker_in_order (net : String → Main.NetResult)
    (tickers : List Main.Ticker) :
    (Main.query_tickers net tickers).1.map Main.Row.get_ticker
        = tickers.map Main.Ticker.id
    ∧ (Main.query_tickers net tickers).1.length = tickers.length := by
  constructor
  · rw [Main.query_tickers_fst, List.map_map]
    exact List.map_congr_left fun t _ => Main.row_for_get_ticker net t
  · rw [Main.query_tickers_fst, List.length_map]

/-- Claim C2: when the quote fetch for a configured ticker fails, the batch
logs the error message, places the failure-variant row for that ticker at
that position (only id and quantity populated; price, change, total and
currency all absent), and still yields one row per ticker — a failing
ticker never aborts the report. -/
theorem c2_fetch_error_recovered_locally (net : String → Main.NetResult)
    (tickers : List Main.Ticker) (i : Nat) (t : Main.Ticker) (e : String)
    (ht : tickers[i]? = some t)
    (he : Main.deserialize_yahoo net t = .error e) :
    (Main.query_tickers net tickers).1[i]?
        = some (Main.Row.failed (Main.create_failed_row t))
    ∧ (Main.Row.failed (Main.create_failed_row t)).get_ticker = t.id
    ∧ (Main.Row.failed (Main.create_failed_row t)).get_quantity = t.quantity.getD 0
    ∧ (Main.Row.failed (Main.create_failed_row t)).get_price = none
    ∧ (Main.Row.failed (Main.create_failed_row t)).get_change = none
    ∧ (Main.Row.failed (Main.create_failed_row t)).get_total = none
    ∧ (Main.Row.failed (Main.create_failed_row t)).get_currency = none
    ∧ e ∈ (Main.query_tickers net tickers).2
    ∧ (Main.query_tickers net tickers).1.length = tickers.length := by
  refine ⟨?_, rfl, rfl, rfl, rfl, rfl, rfl, ?_, ?_⟩
  · rw [Main.query_tickers_fst, List.getElem?_map, ht]
    simp only [Option.map_some']
    rw [Main.row_for_error he]
  · exact Main.mem_query_tickers_log (List.getElem?_mem ht) he
  · rw [Main.query_tickers_fst, List.length_map]

/-- Witness for C2: a one-ticker config whose fetch fails at the transport
stage yields the failure row at position 0. -/
theorem c2_fetch_error_recovered_locally_witness :
    (Main.query_tickers (fun _ => .connectFailed "boom")
        [⟨"GOOG", some 2⟩]).1[0]?
      = some (Main.Row.failed (Main.create_failed_row ⟨"GOOG", some 2⟩)) :=
  (c2_fetch_error_recovered_locally (fun _ => .connectFailed "boom")
    [⟨"GOOG", some 2⟩] 0 ⟨"GOOG", some 2⟩
    "Warning: invalid response from yahoo! boom" rfl rfl).1

/-- Sum of a list of decimals, the way `main` accumulates: start from
`Decimal::zero()` and fold with `add`. -/
def sumDecimal (ds : List Decimal) : Decimal :=
  ds.foldl Decimal.add Decimal.zero

namespace Main

theorem main_loop_spec (rows : List Row) (total : Decimal) (acc : List (List String)) :
    main_loop rows total acc
      = ((rows.filterMap Row.get_total).foldl Decimal.add total,
         acc ++ rows.map Row.write_line) := by
  induction rows generalizing total acc with
  | nil => simp [main_loop]
  | cons r rs ih =>
    cases r with
    | real q =>
      simp [main_loop, Row.get_total, ih, List.filterMap_cons, List.append_assoc]
    | failed f =>
      simp [main_loop, Row.get_total, ih, List.filterMap_cons, List.append_assoc]

end Main

/-- Claim C3: the grand total accumulated by the loop in `main` (and written
into the totals record of the CSV) equals the sum of the `total` fields of
the success-variant rows; a failure-variant row contributes nothing to the
accumulator (only its rendered line), so failures do not invalidate the
total. -/
theorem c3_grand_total_is_sum_of_success_totals (rows : List Main.Row) :
    (Main.main_loop rows Decimal.zero [Main.csvHeader]).1
        = sumDecimal (rows.filterMap Main.Row.get_total)
    ∧ (∀ (f : Main.FailedQuote) (total : Decimal) (acc : List (List String)),
        Main.main_loop (Main.Row.failed f :: rows) total acc
          = Main.main_loop rows total (acc ++ [(Main.Row.failed f).write_line]))
    ∧ (Main.write_csv rows).getLast?
        = some ["", "", "", "",
            (sumDecimal (rows.filterMap Main.Row.get_total)).to_string, ""] := by
  refine ⟨?_, fun f total acc => rfl, ?_⟩
  · rw [Main.main_loop_spec]
    rfl
  · show ((Main.main_loop rows Decimal.zero [Main.csvHeader]).2
      ++ [["", "", "", "", "", ""],
          ["", "", "", "", (Main.main_loop rows Decimal.zero [Main.csvHeader]).1.to_string, ""]]).getLast? = _
    rw [show ((Main.main_loop rows Decimal.zero [Main.csvHeader]).2
        ++ [["", "", "", "", "", ""],
            ["", "", "", "", (Main.main_loop rows Decimal.zero [Main.csvHeader]).1.to_string, ""]])
      = ((Main.main_loop rows Decimal.zero [Main.csvHeader]).2
        ++ [["", "", "", "", "", ""]])
        ++ [["", "", "", "", (Main.main_loop rows Decimal.zero [Main.csvHeader]).1.to_string, ""]]
      from by rw [List.append_assoc]; rfl]
    rw [List.getLast?_concat, Main.main_loop_spec]
    rfl

/-- Claim C5: the emitted CSV is the header record
`Ticker,Price,Change,Quantity,Total,Currency`, one record per row of the
report in order, one fully blank record, and a totals record whose fifth
field (the position under the `Total` header) is the grand total and whose
sixth (currency) field is blank. -/
theorem c5_csv_layout (rows : List Main.Row) :
    Main.write_csv rows
      = ["Ticker", "Price", "Change", "Quantity", "Total", "Currency"]
          :: (rows.map Main.Row.write_line
            ++ [["", "", "", "", "", ""],
                ["", "", "", "",
                  (sumDecimal (rows.filterMap Main.Row.get_total)).to_string, ""]]) := by
  show (Main.main_loop rows Decimal.zero [Main.csvHeader]).2
      ++ [["", "", "", "", "", ""],
          ["", "", "", "", (Main.main_loop rows Decimal.zero [Main.csvHeader]).1.to_string, ""]] = _
  rw [Main.main_loop_spec]
  simp [Main.csvHeader, sumDecimal]

/-- The mock network of the C4 scenario: every ticker resolves to a decoded
response with `regularMarketPrice = 100.00`, `previousClose = 98.00`,
`chartPreviousClose = 98.00`, currency `USD`. -/
def scenarioNet : String → Main.NetResult :=
  fun _ => .ok ⟨⟨[⟨⟨"USD", ⟨9800, 2⟩, some ⟨9800, 2⟩, ⟨10000, 2⟩⟩⟩]⟩⟩

/-- Claim C4: a success row fetched from a decoded response renders six
fields — the ticker id, the price rounded to 2 decimals, the change
`price - previous_close` (falling back to `chart_previous_close`) rounded
to 2 decimals, the quantity, the total `price * quantity` rounded to 2
decimals, and the currency; a failure row renders its id, blank, blank, its
quantity, blank, blank; and the concrete scenario `GOOG`, quantity 2, price
100.00, previous close 98.00, USD renders `GOOG,100.00,2.00,2,200.00,USD`. -/
theorem c4_row_rendering (net : String → Main.NetResult) (t : Main.Ticker)
    (meta : Main.Meta) (rest : List Main.Quote)
    (h : net t.id = .ok ⟨⟨⟨meta⟩ :: rest⟩⟩) :
    (Main.row_for net t).write_line
      = [t.id,
         (meta.regular_market_price.round_dp 2).to_string,
         ((meta.regular_market_price.sub
             (meta.previous_close.getD meta.chart_previous_close)).round_dp 2).to_string,
         Nat.repr (t.quantity.getD 0),
         ((meta.regular_market_price.mul
             (Decimal.ofNat (t.quantity.getD 0))).round_dp 2).to_string,
         meta.currency]
    ∧ (∀ f : Main.FailedQuote,
        (Main.Row.failed f).write_line = [f.ticker, "", "", Nat.repr f.quantity, "", ""])
    ∧ (Main.row_for scenarioNet ⟨"GOOG", some 2⟩).write_line
        = ["GOOG", "100.00", "2.00", "2", "200.00", "USD"] := by
  refine ⟨?_, fun f => rfl, by decide⟩
  unfold Main.row_for Main.deserialize_yahoo
  rw [h]
  rfl

/-- Witness for C4 at the scenario network itself. -/
theorem c4_row_rendering_witness :
    (Main.row_for scenarioNet ⟨"GOOG", some 2⟩).write_line
      = ["GOOG",
         (Decimal.round_dp ⟨10000, 2⟩ 2).to_string,
         ((Decimal.sub ⟨10000, 2⟩ ⟨9800, 2⟩).round_dp 2).to_string,
         Nat.repr 2,
         ((Decimal.mul ⟨10000, 2⟩ (Decimal.ofNat 2)).round_dp 2).to_string,
         "USD"] :=
  (c4_row_rendering scenarioNet ⟨"GOOG", some 2⟩
    ⟨"USD", ⟨9800, 2⟩, some ⟨9800, 2⟩, ⟨10000, 2⟩⟩ [] rfl).1

/-- Claim C7: whenever the HTTP response carries a non-2xx status,
`request_quote` returns `HttpError(status)`; the quantification over every
possible body-decode outcome shows the body is never consulted. -/
theorem c7_non_2xx_returns_http_error (ticker : String) (status : Nat)
    (decoded : Except String Yahoo.YahooResponse)
    (h : ¬ (200 ≤ status ∧ status < 300)) :
    Yahoo.request_quote ticker (.response status decoded)
      = .err (.httpError status) := by
  unfold Yahoo.request_quote
  simp [Yahoo.statusIsSuccess, h]

/-- Witness for C7: a 404 response with a perfectly decodable body still
yields `HttpError 404`. -/
theorem c7_non_2xx_returns_http_error_witness :
    Yahoo.request_quote "GOOG" (.response 404 (.ok ⟨⟨[]⟩⟩))
      = .err (.httpError 404) :=
  c7_non_2xx_returns_http_error "GOOG" 404 (.ok ⟨⟨[]⟩⟩) (by decide)

/-- Claim C8: a successful (2xx), well-formed response whose `chart.result`
is empty makes `request_quote` return the typed error reserved for the
empty-result case — `InvalidResponse "No data provided"` (this is how the
specification names `QuoteError::NoData`), distinct from the HTTP,
connection and JSON-decode errors. -/
theorem c8_empty_result_is_no_data (ticker : String) (status : Nat)
    (h1 : 200 ≤ status) (h2 : status < 300) :
    Yahoo.request_quote ticker (.response status (.ok ⟨⟨[]⟩⟩))
      = .err (.invalidResponse "No data provided") := by
  unfold Yahoo.request_quote
  simp [Yahoo.statusIsSuccess, h1, h2, List.head?]

/-- Witness for C8 at status 200. -/
theorem c8_empty_result_is_no_data_witness :
    Yahoo.request_quote "GOOG" (.response 200 (.ok ⟨⟨[]⟩⟩))
      = .err (.invalidResponse "No data provided") :=
  c8_empty_result_is_no_data "GOOG" 200 (by decide) (by decide)

/-- Counterexample to C6 as stated: a successful, well-formed response for
the requested symbol in which BOTH `previousClose` and
`chartPreviousClose` are absent makes `request_quote` panic (the `unwrap`
of `previous_close.or(chart_previous_close)`), not return
`QuoteError::Malformed` or any other typed error. -/
theorem c6_counterexample_no_previous_close_panics :
    Yahoo.request_quote "GOOG"
        (.response 200 (.ok ⟨⟨[⟨⟨"GOOG", "USD", none, none, ⟨10000, 2⟩⟩⟩]⟩⟩))
      = .panicked "called Option::unwrap on a None value" := by decide

/-- Claim C6 (amended): on a successful, well-formed response for the
requested symbol, `request_quote` uses `regular_market_price` as the price
and computes the change against `previous_close` when present, else
`chart_previous_close`; but when neither previous-close field is present it
panics on the `unwrap` instead of returning a typed decode error. -/
theorem c6_previous_close_fallback (ticker : String) (status : Nat)
    (meta : Yahoo.YahooMeta) (rest : List Yahoo.YahooQuote)
    (h1 : 200 ≤ status) (h2 : status < 300) (hsym : meta.symbol = ticker) :
    (∀ prev : Decimal,
      meta.previous_close.or meta.chart_previous_close = some prev →
      Yahoo.request_quote ticker (.response status (.ok ⟨⟨⟨meta⟩ :: rest⟩⟩))
        = .ok ⟨meta.regular_market_price,
               meta.regular_market_price.sub prev, meta.currency⟩)
    ∧ (meta.previous_close = none → meta.chart_previous_close = none →
      Yahoo.request_quote ticker (.response status (.ok ⟨⟨⟨meta⟩ :: rest⟩⟩))
        = .panicked "called Option::unwrap on a None value") := by
  constructor
  · intro prev hprev
    unfold Yahoo.request_quote
    simp [Yahoo.statusIsSuccess, h1, h2, List.head?, hsym, hprev]
  · intro hp hc
    unfold Yahoo.request_quote
    simp [Yahoo.statusIsSuccess, h1, h2, List.head?, hsym, hp, hc]

/-- Witness for C6 (amended): the fallback to `chartPreviousClose` on a
concrete response where `previousClose` is absent. -/
theorem c6_previous_close_fallback_witness :
    Yahoo.request_quote "GOOG"
        (.response 200 (.ok ⟨⟨[⟨⟨"GOOG", "USD", none, some ⟨9800, 2⟩, ⟨10000, 2⟩⟩⟩]⟩⟩))
      = .ok ⟨⟨10000, 2⟩, Decimal.sub ⟨10000, 2⟩ ⟨9800, 2⟩, "USD"⟩ :=
  (c6_previous_close_fallback "GOOG" 200
      ⟨"GOOG", "USD", none, some ⟨9800, 2⟩, ⟨10000, 2⟩⟩ []
      (by decide) (by decide) rfl).1 ⟨9800, 2⟩ rfl

/-- Claim C10: a successful, well-formed response whose `meta.symbol`
differs from the requested ticker makes `request_quote` panic on its
`assert_eq!` instead of returning a typed `YahooError` — the client is not
total over well-formed responses. -/
theorem c10_symbol_mismatch_panics :
    Yahoo.request_quote "GOOG"
        (.response 200
          (.ok ⟨⟨[⟨⟨"MSFT", "USD", some ⟨9800, 2⟩, some ⟨9800, 2⟩, ⟨10000, 2⟩⟩⟩]⟩⟩))
      = .panicked "assertion failed: ticker == quote.symbol" := by decide

theorem query_tickers_sched_head_start {dur : String → Nat}
    {tickers : List Main.Ticker} {now : Nat} {e : FetchEvent}
    (h : (query_tickers_sched dur tickers now)[0]? = some e) : e.start = now := by
  cases tickers with
  | nil => simp [query_tickers_sched] at h
  | cons t ts =>
    simp only [query_tickers_sched, List.getElem?_cons_zero, Option.some.injEq] at h
    rw [← h]

theorem query_tickers_sched_adjacent {dur : String → Nat} :
    ∀ (tickers : List Main.Ticker) (now i : Nat) (e e2 : FetchEvent),
      (query_tickers_sched dur tickers now)[i]? = some e →
      (query_tickers_sched dur tickers now)[i + 1]? = some e2 →
      e2.start = e.finish
  | [], _, _, _, _, h1, _ => by simp [query_tickers_sched] at h1
  | t :: ts, now, 0, e, e2, h1, h2 => by
    simp only [query_tickers_sched, List.getElem?_cons_zero, Option.some.injEq] at h1
    simp only [query_tickers_sched, List.getElem?_cons_succ] at h2
    rw [← h1]
    exact query_tickers_sched_head_start h2
  | t :: ts, now, i + 1, e, e2, h1, h2 => by
    simp only [query_tickers_sched, List.getElem?_cons_succ] at h1 h2
    exact query_tickers_sched_adjacent ts (now + dur t.id) i e e2 h1 h2

/-- Counterexample to C9 as stated: `query_tickers` contains no pacing
(rate limiting is a `todo` comment), so on a mock clock where every fetch
takes 100 units, the second request is issued at 100 — the very instant the
first returned — which violates the configured-delay contract for any
positive delay (at the default 300, the gate would require a start no
earlier than 100 + 300). -/
theorem c9_counterexample_no_delay_between_fetches :
    query_tickers_sched (fun _ => 100) [⟨"GOOG", none⟩, ⟨"MSFT", none⟩] 0
      = [⟨"GOOG", 0, 100⟩, ⟨"MSFT", 100, 200⟩]
    ∧ ¬ (100 + 300 ≤ 100) := ⟨rfl, by decide⟩

/-- Claim C9 (amended): the polling loop is strictly sequential — each
request after the first is issued exactly when the previous request
returned (a gap of zero, with no enforced minimum delay), and the first
request is issued immediately, without delay. -/
theorem c9_sequential_zero_gap (dur : String → Nat)
    (tickers : List Main.Ticker) (now i : Nat) (e e2 : FetchEvent)
    (h1 : (query_tickers_sched dur tickers now)[i]? = some e)
    (h2 : (query_tickers_sched dur tickers now)[i + 1]? = some e2) :
    e2.start = e.finish
    ∧ (∀ e0 : FetchEvent,
        (query_tickers_sched dur tickers now)[0]? = some e0 → e0.start = now) :=
  ⟨query_tickers_sched_adjacent tickers now i e e2 h1 h2,
   fun _ h0 => query_tickers_sched_head_start h0⟩

/-- Witness for C9 (amended) on a concrete two-ticker trace. -/
theorem c9_sequential_zero_gap_witness :
    (⟨"MSFT", 100, 200⟩ : FetchEvent).start = (⟨"GOOG", 0, 100⟩ : FetchEvent).finish
    ∧ (∀ e0 : FetchEvent,
        (query_tickers_sched (fun _ => 100) [⟨"GOOG", none⟩, ⟨"MSFT", none⟩] 0)[0]?
          = some e0 → e0.start = 0) :=
  c9_sequential_zero_gap (fun _ => 100) [⟨"GOOG", none⟩, ⟨"MSFT", none⟩] 0 0
    ⟨"GOOG", 0, 100⟩ ⟨"MSFT", 100, 200⟩ rfl rfl
